import Mathlib

/-!
Shallow embedding of `src/script.py` (Program A, the multi-camera capture
tool) and proofs about its specification.

Modelling conventions:
* A camera source is a device index (`int` in Python) or a stream URL
  (`str` in Python).
* The external camera library (`cv2`) is modelled by environment inputs:
  for `_initializeCamera`, each source comes with two booleans saying
  whether `VideoCapture(...).isOpened()` holds and whether the throwaway
  liveness `read()` succeeds; for `captureImages`, a function from camera
  id to the success of `cap.read()` at the current tick.
* File-system writes (`cv2.imwrite`) are modelled as a trace: the list of
  filenames written, in order.
* Camera handle lifecycle (`VideoCapture` construction / `release()`) is
  modelled as an event trace (`CamEvent`), so that release discipline can
  be stated.
* Python `datetime` values parsed by `strptime` are modelled as integers
  (seconds); `end_dt - start_dt` becomes integer subtraction.
* The capture loop of `start_capture` (lines 180-194) is modelled as a
  small-step machine whose steps read the cross-thread flags
  (`is_paused`, `quit_flag`) at exactly the program points where the
  Python code reads them.
-/

/-- A camera source: an integer device index or a string stream URL
(script.py passes either an `int` or a `str` to `cv2.VideoCapture`). -/
inductive CamSource where
  | idx (n : Int)
  | url (s : String)
deriving DecidableEq, Repr

/-- Rendering of a camera source inside a formatted message, as Python
f-strings do (`str` of the int, or the string itself). -/
def sourceStr : CamSource → String
  | CamSource.idx n => toString n
  | CamSource.url s => s

/-- One entry of `self.cameras` (script.py lines 58-62): the handle
(`cap`, modelled as a numeric handle id), the declared source, and the
assigned ordinal id `i+1`. -/
structure Camera where
  cap : Nat
  source : CamSource
  id : Nat
deriving DecidableEq, Repr

/-- One entry of the local `captured_images` list built during a tick
(script.py lines 83-88): filename, camera id and camera source.  The
wall-clock timestamp string stored alongside is not modelled separately
from the tick timestamp. -/
structure FileInfo where
  filename : String
  camera_id : Nat
  camera_source : CamSource
deriving DecidableEq, Repr

/-- One session record appended to `self.captured_images` on a successful
tick (script.py lines 96-100). -/
structure Session where
  counter : Nat
  timestamp : String
  files : List FileInfo
deriving DecidableEq, Repr

/-- The mutable attributes of an `ImageCapture` object that the capture
and logging code reads and writes (script.py lines 19-27, with
`start_time` / `end_time` modelled as parsed integer timestamps). -/
structure CaptureState where
  image_counter : Nat
  captured_images : List Session
  cameras : List Camera
  cameraSource : List CamSource
  start_time : Option Int
  end_time : Option Int
deriving DecidableEq, Repr

/-- Camera-handle lifecycle events.  `acquired h ok` records the
construction of handle `h` by `cv2.VideoCapture` together with whether
`isOpened()` held; `released h` records a call to `release()` on `h`. -/
inductive CamEvent where
  | acquired (h : Nat) (ok : Bool)
  | released (h : Nat)
deriving DecidableEq, Repr

/-- The normalization of the `cameraSource` constructor argument
(script.py lines 12-17): `None` becomes `[0]`, a single int or string
becomes a one-element list, anything else is stored unchanged. -/
inductive CamArg where
  | noneArg
  | intArg (n : Int)
  | strArg (s : String)
  | listArg (l : List CamSource)
deriving DecidableEq, Repr

/-- The `self.cameraSource` assignment of `ImageCapture.__init__`
(script.py lines 12-17). -/
def normalizeSource : CamArg → List CamSource
  | CamArg.noneArg => [CamSource.idx 0]
  | CamArg.intArg n => [CamSource.idx n]
  | CamArg.strArg s => [CamSource.url s]
  | CamArg.listArg l => l

/-- The loop body of `_initializeCamera` (script.py lines 40-63),
processing the source list from position `i`.  Each source carries its
environment outcome `(opens, reads)`: whether `isOpened()` holds and
whether the liveness `read()` succeeds.  Handle ids are allocated
sequentially.  Returns the `Except` outcome (a raised `RuntimeError`
becomes `Except.error`) and the handle event trace.  The
`CAP_PROP_BUFFERSIZE` tweak for string sources (lines 44-46) has no
observable effect in this model. -/
def initLoop : Nat → List (CamSource × Bool × Bool) → Except String (List Camera) × List CamEvent
  | _, [] => (Except.ok [], [])
  | i, (src, opens, reads) :: rest =>
    if opens then
      if reads then
        match initLoop (i + 1) rest with
        | (Except.ok cams, evs) =>
          (Except.ok ({ cap := i, source := src, id := i + 1 } :: cams),
           CamEvent.acquired i true :: evs)
        | (Except.error e, evs) => (Except.error e, CamEvent.acquired i true :: evs)
      else
        (Except.error ("Error: could not read from camera source " ++ sourceStr src),
         [CamEvent.acquired i true, CamEvent.released i])
    else
      (Except.error ("Could not open camera source " ++ sourceStr src),
       [CamEvent.acquired i false, CamEvent.released i])

/-- `_initializeCamera` (script.py lines 37-65) on a configured source
list with its environment outcomes. -/
def initCameras (srcs : List (CamSource × Bool × Bool)) : Except String (List Camera) × List CamEvent :=
  initLoop 0 srcs

/-- The shutdown release loop of `start_capture` (script.py lines
203-204): every entry of `self.cameras` is released once, in order. -/
def releaseAll (cams : List Camera) : List CamEvent :=
  cams.map (fun c => CamEvent.released c.cap)

/-- Handle events of a whole run of Program A: on successful
initialization, the events of `_initializeCamera` followed by the
shutdown releases of `start_capture` (the capture loop itself touches no
handle lifecycle); on an initialization failure the `RuntimeError`
propagates to `main` (script.py lines 239-244), which prints the error
and returns, so the init-time events are the whole trace. -/
def runEvents (srcs : List (CamSource × Bool × Bool)) : List CamEvent :=
  match initCameras srcs with
  | (Except.ok cams, evs) => evs ++ releaseAll cams
  | (Except.error _, evs) => evs

/-- The filename built for one camera in `captureImages` (script.py lines
74-78): with more than one camera the camera ordinal is included,
otherwise it is omitted. -/
def mkFilename (numCameras counter camId : Nat) (ts : String) : String :=
  if numCameras > 1 then
    toString counter ++ "_camera" ++ toString camId ++ "_" ++ ts ++ ".jpg"
  else
    toString counter ++ "_" ++ ts ++ ".jpg"

/-- The per-camera loop of `captureImages` (script.py lines 71-93).
`readOk` gives the outcome of `cap.read()` per camera id.  On a
successful read the file is written immediately (`cv2.imwrite`, line 81)
and recorded in the write trace; on a failed read the function returns
`False` at once (`none` here), keeping the writes already performed.
Returns the collected per-file records (or `none` on failure) and the
write trace. -/
def captureLoop (numCameras counter : Nat) (ts : String) (readOk : Nat → Bool) :
    List Camera → Option (List FileInfo) × List String
  | [] => (some [], [])
  | c :: rest =>
    if readOk c.id then
      let fn := mkFilename numCameras counter c.id ts
      match captureLoop numCameras counter ts readOk rest with
      | (some fis, ws) =>
        (some ({ filename := fn, camera_id := c.id, camera_source := c.source } :: fis),
         fn :: ws)
      | (none, ws) => (none, fn :: ws)
    else
      (none, [])

/-- `captureImages` (script.py lines 67-103) at one tick: runs the
per-camera loop, and if it completed with a nonempty file list, appends
one session record and increments the counter.  Returns the Python
return value, the new object state, and the write trace of the tick. -/
def captureImages (st : CaptureState) (ts : String) (readOk : Nat → Bool) :
    Bool × CaptureState × List String :=
  match captureLoop st.cameras.length st.image_counter ts readOk st.cameras with
  | (none, ws) => (false, st, ws)
  | (some fis, ws) =>
    if fis.isEmpty then
      (false, st, ws)
    else
      (true,
       { st with
         captured_images := st.captured_images ++
           [{ counter := st.image_counter, timestamp := ts, files := fis }],
         image_counter := st.image_counter + 1 },
       ws)

/-- Total image count computed by `create_log_file` (script.py line
154): the sum of the per-session file-list lengths. -/
def totalFiles (st : CaptureState) : Nat :=
  (st.captured_images.map (fun s => s.files.length)).sum

/-- Rendering of an optional timestamp, as Python renders
`self.start_time` when it is a string or `None`. -/
def timeStr : Option Int → String
  | some t => toString t
  | none => "None"

/-- The lines written by one session block of the log (script.py lines
159-161). -/
def sessionLines (s : Session) : List String :=
  ("--- Capture Session " ++ toString s.counter ++ " at " ++ s.timestamp ++ " ---") ::
    s.files.map (fun f => "Camera " ++ toString f.camera_id ++ " : " ++ f.filename)

/-- `create_log_file` (script.py lines 138-167), modelled as the list of
lines written to `capture_log.txt`: header, camera count, roster,
start/end times, the duration line (only when both times are set,
computed as end minus start), the total image count, and the per-session
listing. -/
def create_log_file (st : CaptureState) : List String :=
  ["Capture Log", "Number of Cameras: " ++ toString st.cameras.length] ++
  (st.cameraSource.enum.map
    (fun p => "Camera " ++ toString (p.1 + 1) ++ ": " ++ sourceStr p.2)) ++
  ["Start Time: " ++ timeStr st.start_time, "End Time: " ++ timeStr st.end_time] ++
  (match st.start_time, st.end_time with
   | some s, some e => ["Total Duration: " ++ toString (e - s)]
   | _, _ => []) ++
  ["Total Images Captured: " ++ toString (totalFiles st)] ++
  (st.captured_images.map sessionLines).flatten ++
  ["End of Log"]

/-- Program points of the capture loop of `start_capture` (script.py
lines 180-194).  `check` is the top of the outer `while not
self.quit_flag` (line 180), immediately before the `capture_image()`
call; `delay k` is the inner delay loop (lines 182-192) with `k` poll
iterations remaining; `wait` is the paused inner `while self.is_paused
and not self.quit_flag` (lines 187-188); `done` is loop exit. -/
inductive LoopPC where
  | check
  | delay (k : Nat)
  | wait
  | done
deriving DecidableEq, Repr

/-- One small step of the capture loop of `start_capture` with
`n = int(self.capture_interval * 10)` poll iterations per tick.  The
arguments `p` and `q` are the values of the shared flags `is_paused` and
`quit_flag` at the flag reads this step performs, and `ok` is the return
value of `capture_image()` if this step calls it.  The returned boolean
records whether the step called `capture_image()`. -/
def stepLoop (n : Nat) : LoopPC → Bool → Bool → Bool → LoopPC × Bool
  | LoopPC.check, _, q, ok =>
    if q then (LoopPC.done, false)
    else if ok then (if n = 0 then LoopPC.check else LoopPC.delay n, true)
    else (LoopPC.done, true)
  | LoopPC.delay k, p, q, _ =>
    if q then (LoopPC.check, false)
    else if p then (LoopPC.wait, false)
    else if k ≤ 1 then (LoopPC.check, false)
    else (LoopPC.delay (k - 1), false)
  | LoopPC.wait, p, q, _ =>
    if p && !q then (LoopPC.wait, false) else (LoopPC.check, false)
  | LoopPC.done, _, _, _ => (LoopPC.done, false)

/-- The invariant the spec states for the session records: their counters
are strictly increasing, and all of them are below the current value of
`image_counter`. -/
def countersInv (st : CaptureState) : Prop :=
  List.Chain' (· < ·) (st.captured_images.map (fun s => s.counter)) ∧
  ∀ s ∈ st.captured_images, s.counter < st.image_counter

/-- A sample camera with ordinal 1, as built by `_initializeCamera` for
the first source. -/
def camA : Camera := { cap := 0, source := CamSource.idx 0, id := 1 }

/-- A sample camera with ordinal 2, as built by `_initializeCamera` for
the second source. -/
def camB : Camera := { cap := 1, source := CamSource.idx 1, id := 2 }

/-- A freshly initialized two-camera `ImageCapture` state. -/
def stTwoCams : CaptureState :=
  { image_counter := 1, captured_images := [], cameras := [camA, camB],
    cameraSource := [CamSource.idx 0, CamSource.idx 1],
    start_time := none, end_time := none }

/-- A freshly initialized `ImageCapture` state whose configured source
list is empty. -/
def stNoCams : CaptureState :=
  { image_counter := 1, captured_images := [], cameras := [],
    cameraSource := [], start_time := none, end_time := none }

/-- A state at shutdown after one successful two-camera tick, with both
session timestamps recorded. -/
def stLogged : CaptureState :=
  { image_counter := 2,
    captured_images := [{ counter := 1, timestamp := "T", files :=
      [{ filename := "1_camera1_T.jpg", camera_id := 1, camera_source := CamSource.idx 0 },
       { filename := "1_camera2_T.jpg", camera_id := 2, camera_source := CamSource.idx 1 }] }],
    cameras := [camA, camB],
    cameraSource := [CamSource.idx 0, CamSource.idx 1],
    start_time := some 100, end_time := some 160 }

/-- A per-tick read environment in which only the camera with ordinal 1
produces a frame. -/
def readFirstOnly : Nat → Bool := fun i => i == 1

/-- A per-tick read environment in which every camera produces a frame. -/
def readAllOk : Nat → Bool := fun _ => true

/-- Two configured sources whose opens and liveness reads all succeed. -/
def srcsGood : List (CamSource × Bool × Bool) :=
  [(CamSource.idx 0, true, true), (CamSource.idx 1, true, true)]

/-- Two configured sources where the first opens and reads fine but the
second fails to open. -/
def srcsSecondBad : List (CamSource × Bool × Bool) :=
  [(CamSource.idx 0, true, true), (CamSource.idx 1, false, true)]

/-! ### Helper lemmas about the per-camera capture loop -/

/-- When every camera's read succeeds, the per-camera loop collects one
record per camera and writes one file per camera, in order. -/
lemma captureLoop_all_ok (nc cnt : Nat) (ts : String) (r : Nat → Bool) :
    ∀ cams : List Camera, (∀ c ∈ cams, r c.id = true) →
      captureLoop nc cnt ts r cams =
        (some (cams.map (fun c =>
            { filename := mkFilename nc cnt c.id ts, camera_id := c.id,
              camera_source := c.source })),
         cams.map (fun c => mkFilename nc cnt c.id ts)) := by
  intro cams
  induction cams with
  | nil => intro _; rfl
  | cons c rest ih =>
    intro h
    have hc : r c.id = true := h c (List.mem_cons_self c rest)
    have hrest := ih (fun c' hc' => h c' (List.mem_cons_of_mem _ hc'))
    simp [captureLoop, hc, hrest]

/-- If the per-camera loop completed (`some`), every camera's read
succeeded. -/
lemma captureLoop_some_all_ok (nc cnt : Nat) (ts : String) (r : Nat → Bool) :
    ∀ (cams : List Camera) (fis : List FileInfo) (ws : List String),
      captureLoop nc cnt ts r cams = (some fis, ws) →
      ∀ c ∈ cams, r c.id = true := by
  intro cams
  induction cams with
  | nil => intro fis ws _ c hc; exact absurd hc (List.not_mem_nil c)
  | cons c rest ih =>
    intro fis ws h c' hc'
    by_cases hr : r c.id = true
    · rcases hrec : captureLoop nc cnt ts r rest with ⟨o, ws'⟩
      cases o with
      | some fis' =>
        rcases List.mem_cons.mp hc' with rfl | hmem
        · exact hr
        · exact ih fis' ws' hrec c' hmem
      | none => simp [captureLoop, hr, hrec] at h
    · simp [captureLoop, hr] at h

/-- When the cameras are a block of successful reads followed by a
failing camera, the loop aborts returning `none`, but the write trace
already holds one file per camera preceding the failure. -/
lemma captureLoop_first_fail (nc cnt : Nat) (ts : String) (r : Nat → Bool) :
    ∀ (pre : List Camera) (c : Camera) (post : List Camera),
      (∀ c' ∈ pre, r c'.id = true) → r c.id = false →
      captureLoop nc cnt ts r (pre ++ c :: post) =
        (none, pre.map (fun c' => mkFilename nc cnt c'.id ts)) := by
  intro pre
  induction pre with
  | nil => intro c post _ hf; simp [captureLoop, hf]
  | cons p pre' ih =>
    intro c post hpre hf
    have hp : r p.id = true := hpre p (List.mem_cons_self p pre')
    have hrest := ih c post (fun c' hc' => hpre c' (List.mem_cons_of_mem _ hc')) hf
    simp [captureLoop, hp, hrest]

/-! ### Claims about `captureImages` -/

/-- Claim C9: the constructor normalizes its camera-source argument.
`None` yields the default list `[0]`; a single int or string yields the
one-element list containing it; any other value is stored as the source
list unchanged (script.py lines 11-17). -/
theorem normalizeSource_cases :
    normalizeSource CamArg.noneArg = [CamSource.idx 0] ∧
    (∀ n : Int, normalizeSource (CamArg.intArg n) = [CamSource.idx n]) ∧
    (∀ s : String, normalizeSource (CamArg.strArg s) = [CamSource.url s]) ∧
    (∀ l : List CamSource, normalizeSource (CamArg.listArg l) = l) :=
  ⟨rfl, fun _ => rfl, fun _ => rfl, fun _ => rfl⟩

/-- Claim C3: a successful tick (`captureImages` returning `True`)
requires at least one configured camera, writes exactly one file per
camera, and appends exactly one session record whose file list has one
entry per camera (script.py lines 67-103). -/
theorem captureImages_success_shape (st : CaptureState) (ts : String) (r : Nat → Bool)
    (h : (captureImages st ts r).1 = true) :
    1 ≤ st.cameras.length ∧
    (captureImages st ts r).2.2.length = st.cameras.length ∧
    ∃ fis : List FileInfo,
      fis.length = st.cameras.length ∧
      (captureImages st ts r).2.1.captured_images =
        st.captured_images ++
          [{ counter := st.image_counter, timestamp := ts, files := fis }] := by
  rcases hl : captureLoop st.cameras.length st.image_counter ts r st.cameras with ⟨o, ws⟩
  cases o with
  | none => simp [captureImages, hl] at h
  | some fis =>
    have hok := captureLoop_some_all_ok st.cameras.length st.image_counter ts r
      st.cameras fis ws hl
    have hshape := captureLoop_all_ok st.cameras.length st.image_counter ts r
      st.cameras hok
    rw [hl] at hshape
    obtain ⟨hfis, hws⟩ : fis = _ ∧ ws = _ := by
      constructor <;> [exact (Option.some.inj (congrArg Prod.fst hshape)); exact congrArg Prod.snd hshape]
    by_cases he : fis.isEmpty
    · simp [captureImages, hl, he] at h
    · have hlen : fis.length = st.cameras.length := by rw [hfis]; simp
      have hne : 1 ≤ st.cameras.length := by
        rcases Nat.eq_zero_or_pos st.cameras.length with h0 | h1
        · exfalso
          apply he
          rw [List.isEmpty_iff, ← List.length_eq_zero, hlen, h0]
        · exact h1
      refine ⟨hne, ?_, fis, hlen, ?_⟩
      · simp [captureImages, hl, he, hws]
      · simp [captureImages, hl, he]

/-- Claim C7: every file written on a successful tick is named by the
current counter, the camera ordinal when more than one camera is
configured (and no camera component when exactly one is), and the tick
timestamp, with extension `.jpg` (script.py lines 74-81). -/
theorem captureImages_file_naming (st : CaptureState) (ts : String) (r : Nat → Bool)
    (h : (captureImages st ts r).1 = true) :
    (captureImages st ts r).2.2 = st.cameras.map (fun c =>
      if st.cameras.length > 1 then
        toString st.image_counter ++ "_camera" ++ toString c.id ++ "_" ++ ts ++ ".jpg"
      else
        toString st.image_counter ++ "_" ++ ts ++ ".jpg") := by
  rcases hl : captureLoop st.cameras.length st.image_counter ts r st.cameras with ⟨o, ws⟩
  cases o with
  | none => simp [captureImages, hl] at h
  | some fis =>
    have hok := captureLoop_some_all_ok st.cameras.length st.image_counter ts r
      st.cameras fis ws hl
    have hshape := captureLoop_all_ok st.cameras.length st.image_counter ts r
      st.cameras hok
    rw [hl] at hshape
    have hws : ws = st.cameras.map (fun c => mkFilename st.cameras.length st.image_counter c.id ts) :=
      congrArg Prod.snd hshape
    by_cases he : fis.isEmpty
    · simp [captureImages, hl, he] at h
    · have : (captureImages st ts r).2.2 = ws := by simp [captureImages, hl, he]
      rw [this, hws]
      simp [mkFilename]

/-- Claim C1 (amended): when some camera's read fails mid-tick,
`captureImages` returns `False`, the object state is unchanged (no
session record, counter untouched), the capture loop terminates — but
the files of the cameras read before the failing one have already been
written and persist (script.py writes each file inside the loop, line
81, before later cameras are read). -/
theorem captureImages_read_failure (st : CaptureState) (ts : String) (r : Nat → Bool)
    (pre : List Camera) (c : Camera) (post : List Camera)
    (hc : st.cameras = pre ++ c :: post)
    (hpre : ∀ c' ∈ pre, r c'.id = true)
    (hfail : r c.id = false) :
    (captureImages st ts r).1 = false ∧
    (captureImages st ts r).2.1 = st ∧
    (captureImages st ts r).2.2 =
      pre.map (fun c' => mkFilename st.cameras.length st.image_counter c'.id ts) ∧
    (∀ n p, stepLoop n LoopPC.check p false false = (LoopPC.done, true)) := by
  have hl := captureLoop_first_fail st.cameras.length st.image_counter ts r
    pre c post hpre hfail
  rw [← hc] at hl
  refine ⟨?_, ?_, ?_, ?_⟩
  · simp [captureImages, hl]
  · simp [captureImages, hl]
  · simp [captureImages, hl]
  · intro n p; rfl

/-- Claim C1, counterexample to the original statement: on a two-camera
tick where camera 1's read succeeds and camera 2's read fails,
`captureImages` returns `False` with the state unchanged, yet one image
file (camera 1's) was written — not zero. -/
theorem captureImages_partial_write_cex :
    readFirstOnly camB.id = false ∧
    stTwoCams.cameras = [camA, camB] ∧
    (captureImages stTwoCams "T" readFirstOnly).1 = false ∧
    (captureImages stTwoCams "T" readFirstOnly).2.2 = ["1_camera1_T.jpg"] := by
  refine ⟨rfl, rfl, ?_, ?_⟩ <;> rfl

/-- Witness for `captureImages_read_failure` at the concrete two-camera
state with camera 2 failing. -/
theorem captureImages_read_failure_witness :
    (captureImages stTwoCams "T" readFirstOnly).1 = false ∧
    (captureImages stTwoCams "T" readFirstOnly).2.1 = stTwoCams ∧
    (captureImages stTwoCams "T" readFirstOnly).2.2 =
      [camA].map (fun c' =>
        mkFilename stTwoCams.cameras.length stTwoCams.image_counter c'.id "T") ∧
    (∀ n p, stepLoop n LoopPC.check p false false = (LoopPC.done, true)) :=
  captureImages_read_failure stTwoCams "T" readFirstOnly [camA] camB [] rfl
    (by intro c' hc'; rw [List.mem_singleton] at hc'; subst hc'; rfl) rfl

/-- Claim C2: the image counter increases by exactly 1 on a successful
tick, is unchanged (with the whole state) on a failed tick, and the
strictly-increasing-counters invariant of the session records is
preserved (script.py lines 95-103). -/
theorem captureImages_counter_evolution (st : CaptureState) (ts : String) (r : Nat → Bool) :
    ((captureImages st ts r).1 = true →
      (captureImages st ts r).2.1.image_counter = st.image_counter + 1) ∧
    ((captureImages st ts r).1 = false → (captureImages st ts r).2.1 = st) ∧
    (countersInv st → countersInv (captureImages st ts r).2.1) := by
  rcases hl : captureLoop st.cameras.length st.image_counter ts r st.cameras with ⟨o, ws⟩
  cases o with
  | none =>
    refine ⟨?_, ?_, ?_⟩ <;> simp [captureImages, hl]
  | some fis =>
    by_cases he : fis.isEmpty
    · refine ⟨?_, ?_, ?_⟩ <;> simp [captureImages, hl, he]
    · refine ⟨?_, ?_, ?_⟩
      · intro _; simp [captureImages, hl, he]
      · intro hfalse; simp [captureImages, hl, he] at hfalse
      · intro hinv
        obtain ⟨hch, hlt⟩ := hinv
        have hst : (captureImages st ts r).2.1 =
            { st with
              captured_images := st.captured_images ++
                [{ counter := st.image_counter, timestamp := ts, files := fis }],
              image_counter := st.image_counter + 1 } := by
          simp [captureImages, hl, he]
        rw [hst]
        constructor
        · simp only [List.map_append, List.map_cons, List.map_nil]
          rw [List.chain'_append]
          refine ⟨hch, List.chain'_singleton _, ?_⟩
          intro x hx y hy
          have hxmem : x ∈ List.map (fun s => s.counter) st.captured_images := by
            obtain ⟨hne, hxl⟩ := List.mem_getLast?_eq_getLast hx
            rw [hxl]
            exact List.getLast_mem hne
          rcases List.mem_map.mp hxmem with ⟨s, hs, hsc⟩
          have hyc : y = st.image_counter := by
            simp only [List.head?_cons, Option.mem_def, Option.some.injEq] at hy
            exact hy.symm
          rw [hyc, ← hsc]
          exact hlt s hs
        · intro s hs
          rcases List.mem_append.mp hs with hold | hnew
          · exact Nat.lt_succ_of_lt (hlt s hold)
          · rw [List.mem_singleton] at hnew
            subst hnew
            exact Nat.lt_succ_self _

/-- Witness for `captureImages_counter_evolution` at a concrete
successful two-camera tick starting from a state satisfying the
invariant. -/
theorem captureImages_counter_evolution_witness :
    (captureImages stTwoCams "T" readAllOk).2.1.image_counter = stTwoCams.image_counter + 1 ∧
    countersInv (captureImages stTwoCams "T" readAllOk).2.1 :=
  ⟨(captureImages_counter_evolution stTwoCams "T" readAllOk).1 rfl,
   (captureImages_counter_evolution stTwoCams "T" readAllOk).2.2
     ⟨by simp [stTwoCams], by simp [stTwoCams]⟩⟩

/-- Witness for `captureImages_success_shape` at a concrete successful
two-camera tick. -/
theorem captureImages_success_shape_witness :
    1 ≤ stTwoCams.cameras.length ∧
    (captureImages stTwoCams "T" readAllOk).2.2.length = stTwoCams.cameras.length ∧
    ∃ fis : List FileInfo,
      fis.length = stTwoCams.cameras.length ∧
      (captureImages stTwoCams "T" readAllOk).2.1.captured_images =
        stTwoCams.captured_images ++
          [{ counter := stTwoCams.image_counter, timestamp := "T", files := fis }] :=
  captureImages_success_shape stTwoCams "T" readAllOk rfl

/-- Witness for `captureImages_file_naming` at a concrete successful
two-camera tick. -/
theorem captureImages_file_naming_witness :
    (captureImages stTwoCams "T" readAllOk).2.2 = stTwoCams.cameras.map (fun c =>
      if stTwoCams.cameras.length > 1 then
        toString stTwoCams.image_counter ++ "_camera" ++ toString c.id ++ "_" ++ "T" ++ ".jpg"
      else
        toString stTwoCams.image_counter ++ "_" ++ "T" ++ ".jpg") :=
  captureImages_file_naming stTwoCams "T" readAllOk rfl

/-! ### Claims about the capture loop of `start_capture` -/

/-- Claim C8 (amended): once a poll of the delay loop observes the pause
flag set with the quit flag unset, the loop moves to (and stays in) the
paused wait state and performs no capture until a poll observes pause
cleared or quit set; moreover a capture is only ever performed from the
top of the outer loop, which reads only the quit flag — so a pause set
after the last delay poll, or a delay loop of zero polls
(`int(interval * 10) = 0`), does not prevent the next capture
(script.py lines 180-194). -/
theorem pause_blocks_delay_loop (n k : Nat) (ok : Bool) :
    stepLoop n (LoopPC.delay k) true false ok = (LoopPC.wait, false) ∧
    stepLoop n LoopPC.wait true false ok = (LoopPC.wait, false) ∧
    (∀ pc p q o, (stepLoop n pc p q o).2 = true → pc = LoopPC.check) := by
  refine ⟨rfl, rfl, ?_⟩
  intro pc p q o h
  cases pc with
  | check => rfl
  | delay k' => simp only [stepLoop] at h; split_ifs at h
  | wait => simp only [stepLoop] at h; split_ifs at h
  | done => simp [stepLoop] at h

/-- Witness for `pause_blocks_delay_loop` at concrete arguments,
including a discharge of the capture-implies-check implication. -/
theorem pause_blocks_delay_loop_witness :
    stepLoop 20 (LoopPC.delay 20) true false true = (LoopPC.wait, false) ∧
    stepLoop 20 LoopPC.wait true false true = (LoopPC.wait, false) ∧
    LoopPC.check = LoopPC.check :=
  ⟨(pause_blocks_delay_loop 20 20 true).1,
   (pause_blocks_delay_loop 20 20 true).2.1,
   (pause_blocks_delay_loop 20 20 true).2.2 LoopPC.check false false true rfl⟩

/-- Claim C8, counterexample to the original statement: a step from the
top of the capture loop taken while the pause flag is set and the quit
flag is not still calls `capture_image` — the outer `while` (script.py
line 180) checks only the quit flag.  With `int(interval * 10) = 0` the
delay loop body never runs, so the pause flag is never even observed and
capture continues indefinitely while paused. -/
theorem capture_while_paused_cex :
    stepLoop 0 LoopPC.check true false true = (LoopPC.check, true) ∧
    stepLoop 20 LoopPC.check true false true = (LoopPC.delay 20, true) :=
  ⟨rfl, rfl⟩

/-- Claim C10: with an empty configured source list, initialization
succeeds (the loop of `_initializeCamera` runs zero times), the first
`captureImages` call returns `False` writing no file, appending no
record and leaving the counter unchanged, the capture loop terminates
right after that first failed call, and the log still reports zero
images captured (script.py lines 67-103, 180-207). -/
theorem empty_source_list (st : CaptureState) (ts : String) (r : Nat → Bool)
    (hcams : st.cameras = []) (hrecs : st.captured_images = []) :
    initCameras [] = (Except.ok [], []) ∧
    captureImages st ts r = (false, st, []) ∧
    (∀ n p, stepLoop n LoopPC.check p false false = (LoopPC.done, true)) ∧
    "Total Images Captured: 0" ∈ create_log_file st := by
  refine ⟨rfl, ?_, fun n p => rfl, ?_⟩
  · simp [captureImages, hcams, captureLoop]
  · have h0 : totalFiles st = 0 := by simp [totalFiles, hrecs]
    have hline : ("Total Images Captured: " ++ toString (totalFiles st)) =
        "Total Images Captured: 0" := by rw [h0]; decide
    unfold create_log_file
    rw [hline]
    simp

/-- Witness for `empty_source_list` at the concrete zero-camera state. -/
theorem empty_source_list_witness :
    initCameras [] = (Except.ok [], []) ∧
    captureImages stNoCams "T" readAllOk = (false, stNoCams, []) ∧
    (∀ n p, stepLoop n LoopPC.check p false false = (LoopPC.done, true)) ∧
    "Total Images Captured: 0" ∈ create_log_file stNoCams :=
  empty_source_list stNoCams "T" readAllOk rfl rfl

/-! ### Claims about the log file -/

/-- Claim C5: when the log is written with both timestamps set, its
Total Duration line carries exactly the recorded end time minus the
recorded start time, and its Total Images Captured line carries exactly
the sum of the per-session file-list lengths (script.py lines 148-155). -/
theorem log_duration_and_total (st : CaptureState) (s e : Int)
    (hs : st.start_time = some s) (he : st.end_time = some e) :
    ("Total Duration: " ++ toString (e - s)) ∈ create_log_file st ∧
    ("Total Images Captured: " ++
        toString ((st.captured_images.map (fun sess => sess.files.length)).sum))
      ∈ create_log_file st := by
  constructor <;> simp [create_log_file, hs, he, totalFiles, List.mem_append]

/-- Witness for `log_duration_and_total` at a concrete shutdown state. -/
theorem log_duration_and_total_witness :
    ("Total Duration: " ++ toString ((160 : Int) - 100)) ∈ create_log_file stLogged ∧
    ("Total Images Captured: " ++
        toString ((stLogged.captured_images.map (fun sess => sess.files.length)).sum))
      ∈ create_log_file stLogged :=
  log_duration_and_total stLogged 100 160 rfl rfl

/-! ### Claims about `_initializeCamera` -/

/-- When some source fails to open or fails its liveness read, the init
loop raises (returns an error). -/
lemma initLoop_error_of_bad :
    ∀ (srcs : List (CamSource × Bool × Bool)) (i : Nat),
      (∃ x ∈ srcs, x.2.1 = false ∨ x.2.2 = false) →
      ∃ err evs, initLoop i srcs = (Except.error err, evs) := by
  intro srcs
  induction srcs with
  | nil => intro i h; simp at h
  | cons hd rest ih =>
    intro i h
    obtain ⟨src, opens, reads⟩ := hd
    cases opens with
    | false =>
      exact ⟨"Could not open camera source " ++ sourceStr src,
        [CamEvent.acquired i false, CamEvent.released i], by simp [initLoop]⟩
    | true =>
      cases reads with
      | false =>
        exact ⟨"Error: could not read from camera source " ++ sourceStr src,
          [CamEvent.acquired i true, CamEvent.released i], by simp [initLoop]⟩
      | true =>
        have hrest : ∃ x ∈ rest, x.2.1 = false ∨ x.2.2 = false := by
          rcases h with ⟨x, hx, hbad⟩
          rcases List.mem_cons.mp hx with rfl | hmem
          · rcases hbad with h1 | h1 <;> simp at h1
          · exact ⟨x, hmem, hbad⟩
        obtain ⟨err, evs, herr⟩ := ih (i + 1) hrest
        exact ⟨err, CamEvent.acquired i true :: evs, by simp [initLoop, herr]⟩

/-- When every source opens and passes its liveness read, the init loop
returns a camera list without error. -/
lemma initLoop_ok_of_good :
    ∀ (srcs : List (CamSource × Bool × Bool)) (i : Nat),
      (∀ x ∈ srcs, x.2.1 = true ∧ x.2.2 = true) →
      ∃ cams evs, initLoop i srcs = (Except.ok cams, evs) := by
  intro srcs
  induction srcs with
  | nil => intro i _; exact ⟨[], [], rfl⟩
  | cons hd rest ih =>
    intro i h
    obtain ⟨src, opens, reads⟩ := hd
    obtain ⟨ho, hr⟩ := h (src, opens, reads) (List.mem_cons_self _ _)
    subst ho; subst hr
    obtain ⟨cams, evs, hrest⟩ := ih (i + 1) (fun x hx => h x (List.mem_cons_of_mem _ hx))
    exact ⟨{ cap := i, source := src, id := i + 1 } :: cams,
      CamEvent.acquired i true :: evs, by simp [initLoop, hrest]⟩

/-- Claim C4: if any configured source fails to open or fails its one
throwaway liveness read, `_initializeCamera` raises a fatal
`RuntimeError` — so startup aborts and no camera set is handed to the
capture phase; if all sources open and pass the liveness read, no error
is raised (script.py lines 37-65 and 239-244). -/
theorem initCameras_fatal_or_ok (srcs : List (CamSource × Bool × Bool)) :
    ((∃ x ∈ srcs, x.2.1 = false ∨ x.2.2 = false) →
      ∃ err, (initCameras srcs).1 = Except.error err) ∧
    ((∀ x ∈ srcs, x.2.1 = true ∧ x.2.2 = true) →
      ∃ cams, (initCameras srcs).1 = Except.ok cams) := by
  constructor
  · intro h
    obtain ⟨err, evs, herr⟩ := initLoop_error_of_bad srcs 0 h
    exact ⟨err, by simp [initCameras, herr]⟩
  · intro h
    obtain ⟨cams, evs, hok⟩ := initLoop_ok_of_good srcs 0 h
    exact ⟨cams, by simp [initCameras, hok]⟩

/-- Witness for `initCameras_fatal_or_ok`: a concrete source list with a
failing open yields an error, and a concrete all-good list succeeds. -/
theorem initCameras_fatal_or_ok_witness :
    (∃ err, (initCameras srcsSecondBad).1 = Except.error err) ∧
    (∃ cams, (initCameras srcsGood).1 = Except.ok cams) :=
  ⟨(initCameras_fatal_or_ok srcsSecondBad).1 (by decide),
   (initCameras_fatal_or_ok srcsGood).2 (by decide)⟩

/-- On a successful run, the init-loop trace is exactly one successful
acquisition per camera, and the allocated handles are the consecutive
naturals starting at the initial index. -/
lemma initLoop_ok_spec :
    ∀ (srcs : List (CamSource × Bool × Bool)) (i : Nat) (cams : List Camera)
      (evs : List CamEvent),
      initLoop i srcs = (Except.ok cams, evs) →
      evs = cams.map (fun c => CamEvent.acquired c.cap true) ∧
      cams.map (fun c => c.cap) = List.range' i srcs.length := by
  intro srcs
  induction srcs with
  | nil =>
    intro i cams evs h
    simp only [initLoop, Prod.mk.injEq, Except.ok.injEq] at h
    obtain ⟨h1, h2⟩ := h
    subst h1; subst h2
    simp [List.range']
  | cons hd rest ih =>
    intro i cams evs h
    obtain ⟨src, opens, reads⟩ := hd
    cases opens with
    | false => simp [initLoop] at h
    | true =>
      cases reads with
      | false => simp [initLoop] at h
      | true =>
        rcases hrec : initLoop (i + 1) rest with ⟨o, evs'⟩
        cases o with
        | error e => simp [initLoop, hrec] at h
        | ok cams' =>
          obtain ⟨hevs, hcaps⟩ := ih (i + 1) cams' evs' hrec
          simp only [initLoop, hrec, if_true, Prod.mk.injEq, Except.ok.injEq] at h
          obtain ⟨hc, he⟩ := h
          subst hc; subst he
          constructor
          · simp [hevs]
          · simp [hcaps, List.range'_succ]

/-- On a failing run, the init-loop trace is a block of successful
acquisitions for the sources before the failing one, then the
acquisition of the failing source's handle and its single release. -/
lemma initLoop_error_spec :
    ∀ (srcs : List (CamSource × Bool × Bool)) (i : Nat) (err : String)
      (evs : List CamEvent),
      initLoop i srcs = (Except.error err, evs) →
      ∃ k b, evs = ((List.range' i k).map (fun h => CamEvent.acquired h true)) ++
        [CamEvent.acquired (i + k) b, CamEvent.released (i + k)] := by
  intro srcs
  induction srcs with
  | nil => intro i err evs h; simp [initLoop] at h
  | cons hd rest ih =>
    intro i err evs h
    obtain ⟨src, opens, reads⟩ := hd
    cases opens with
    | false =>
      refine ⟨0, false, ?_⟩
      simp [initLoop] at h
      obtain ⟨h1, h2⟩ := h
      subst h2
      simp
    | true =>
      cases reads with
      | false =>
        refine ⟨0, true, ?_⟩
        simp [initLoop] at h
        obtain ⟨h1, h2⟩ := h
        subst h2
        simp
      | true =>
        rcases hrec : initLoop (i + 1) rest with ⟨o, evs'⟩
        cases o with
        | ok cams' => simp [initLoop, hrec] at h
        | error e =>
          obtain ⟨k, b, hevs'⟩ := ih (i + 1) e evs' hrec
          simp only [initLoop, hrec, if_true, Prod.mk.injEq, Except.error.injEq] at h
          obtain ⟨he, hevs⟩ := h
          subst hevs
          refine ⟨k + 1, b, ?_⟩
          have hik : i + (k + 1) = i + 1 + k := by omega
          rw [hevs', hik, List.range'_succ]
          simp

/-- Claim C6 (amended): on every run in which initialization succeeds,
each successfully opened camera handle is released exactly once by
shutdown; on an initialization-failure run the failing source's handle
is acquired and released, while the handles of the sources initialized
earlier in the same run are acquired but never released
(script.py lines 48-56 and 203-205). -/
theorem camera_release_discipline (srcs : List (CamSource × Bool × Bool)) :
    (∀ cams evs, initCameras srcs = (Except.ok cams, evs) →
      ∀ hd : Nat, CamEvent.acquired hd true ∈ runEvents srcs →
        (runEvents srcs).count (CamEvent.released hd) = 1) ∧
    (∀ err evs, initCameras srcs = (Except.error err, evs) →
      ∃ k b, evs = ((List.range' 0 k).map (fun h => CamEvent.acquired h true)) ++
          [CamEvent.acquired k b, CamEvent.released k] ∧
        ∀ hd : Nat, hd ≠ k → CamEvent.released hd ∉ evs) := by
  constructor
  · intro cams evs h hd hmem
    obtain ⟨hevs, hcaps⟩ := initLoop_ok_spec srcs 0 cams evs h
    have hrun : runEvents srcs = evs ++ releaseAll cams := by
      simp [runEvents, h]
    rw [hrun] at hmem ⊢
    rw [List.count_append]
    have hz : evs.count (CamEvent.released hd) = 0 := by
      rw [hevs, List.count_eq_zero]
      intro hc
      rcases List.mem_map.mp hc with ⟨c, _, hcEq⟩
      exact CamEvent.noConfusion hcEq
    have hmem' : hd ∈ cams.map (fun c => c.cap) := by
      rcases List.mem_append.mp hmem with h1 | h2
      · rw [hevs] at h1
        rcases List.mem_map.mp h1 with ⟨c, hc, hcEq⟩
        have hcap : c.cap = hd := by simpa using hcEq
        exact hcap ▸ List.mem_map_of_mem _ hc
      · exfalso
        rcases List.mem_map.mp h2 with ⟨c, _, hcEq⟩
        exact CamEvent.noConfusion hcEq
    have hone : (releaseAll cams).count (CamEvent.released hd) = 1 := by
      have hmm : releaseAll cams = (cams.map (fun c => c.cap)).map CamEvent.released := by
        rw [List.map_map]
        rfl
      rw [hmm,
        List.count_map_of_injective _ CamEvent.released (fun a b hab => by simpa using hab) hd,
        hcaps]
      exact List.count_eq_one_of_mem (List.nodup_range' 0 srcs.length) (hcaps ▸ hmem')
    rw [hz, hone]
  · intro err evs h
    obtain ⟨k, b, hevs⟩ := initLoop_error_spec srcs 0 err evs h
    rw [Nat.zero_add] at hevs
    refine ⟨k, b, hevs, ?_⟩
    intro hd hne hmem
    rw [hevs] at hmem
    rcases List.mem_append.mp hmem with h1 | h2
    · rcases List.mem_map.mp h1 with ⟨x, _, hx⟩
      exact CamEvent.noConfusion hx
    · rcases List.mem_cons.mp h2 with h3 | h3
      · exact CamEvent.noConfusion h3
      · rw [List.mem_singleton] at h3
        have : hd = k := by simpa using h3
        exact hne this

/-- Claim C6, counterexample to the original statement: with two
sources where the second fails to open, the run trace shows handle 0
successfully opened and never released — camera 1's handle leaks on the
initialization-failure path (only the failing source's own handle is
released, script.py lines 48-50, and the `RuntimeError` skips
`start_capture`'s release loop). -/
theorem camera_leak_cex :
    CamEvent.acquired 0 true ∈ runEvents srcsSecondBad ∧
    (runEvents srcsSecondBad).count (CamEvent.released 0) = 0 := by
  decide

/-- Witness for `camera_release_discipline`: the success branch at a
concrete all-good two-source list, and the failure branch at a concrete
list whose second source fails to open. -/
theorem camera_release_discipline_witness :
    (runEvents srcsGood).count (CamEvent.released 0) = 1 ∧
    (∃ k b,
        [CamEvent.acquired 0 true, CamEvent.acquired 1 false, CamEvent.released 1] =
          ((List.range' 0 k).map (fun h => CamEvent.acquired h true)) ++
            [CamEvent.acquired k b, CamEvent.released k] ∧
        ∀ hd : Nat, hd ≠ k →
          CamEvent.released hd ∉
            [CamEvent.acquired 0 true, CamEvent.acquired 1 false, CamEvent.released 1]) :=
  ⟨(camera_release_discipline srcsGood).1
      [{ cap := 0, source := CamSource.idx 0, id := 1 },
       { cap := 1, source := CamSource.idx 1, id := 2 }]
      [CamEvent.acquired 0 true, CamEvent.acquired 1 true] rfl 0 (by decide),
   (camera_release_discipline srcsSecondBad).2
      ("Could not open camera source " ++ sourceStr (CamSource.idx 1))
      [CamEvent.acquired 0 true, CamEvent.acquired 1 false, CamEvent.released 1]
      rfl⟩
